import Mathlib

/-!
# Verification of the XServer VPS renewal script (`renewal.py`)

A shallow embedding of the script's decision logic, faithful to the source:

* `CaptchaSolver._validate_code` and the digit-extraction pipeline of
  `CaptchaSolver.solve` (lines 113-181), with the retry loop modelled over
  the three network-attempt outcomes;
* the post-submission page classifier of `XServerVPSRenewal.submit_extend`
  (lines 929-957);
* the Cloudflare Turnstile handler `complete_turnstile_verification`
  (lines 534-788) over abstract page observations;
* the proxy-effectiveness gate of `setup_browser` (lines 330-352);
* the run state, the eligibility gate and the main `run` pipeline
  (lines 1000-1039; the source is truncated right after the `Unexpired`
  assignment, so the continuation of the pipeline is modelled from the
  specification, as flagged in the doc comments below);
* the README generation `generate_readme` (lines 966-997).

Dates are modelled by their day ordinal (an `Int`): the script formats a
scraped date as an ISO string and reparses that same string in `run`, so
the value that reaches the comparison is the scraped calendar date, and
`datetime.timedelta(days=1)` is subtraction of `1` on ordinals.  Digits
(`\d`, `str.isdigit`) are modelled as the ASCII digits recognised by
`Char.isDigit`, which is what the captcha API returns.
-/

namespace XRenewal

/-! ## Captcha solver (`CaptchaSolver`, lines 107-181) -/

/-- Python `code_response.strip()`: drop whitespace at both ends. -/
def pyStrip (s : List Char) : List Char :=
  ((s.dropWhile Char.isWhitespace).reverse.dropWhile Char.isWhitespace).reverse

/-- Helper for `digitRuns`: `acc` holds the reversed current digit run. -/
def digitRunsAux : List Char → List Char → List (List Char)
  | [], acc => if acc.isEmpty then [] else [acc.reverse]
  | c :: cs, acc =>
    if c.isDigit then digitRunsAux cs (c :: acc)
    else if acc.isEmpty then digitRunsAux cs []
    else acc.reverse :: digitRunsAux cs []

/-- Python `re.findall(r'\d+', code)`: the maximal runs of digits, in order. -/
def digitRuns (s : List Char) : List (List Char) :=
  digitRunsAux s []

/-- Python `len(set(code)) == 1` for nonempty `code`: all characters equal. -/
def allSame : List Char → Bool
  | [] => true
  | c :: cs => cs.all (fun x => x == c)

/-- `CaptchaSolver._validate_code` (lines 113-130): nonempty, length 4-6,
not all characters identical (`len(set(code)) == 1`), all digits. -/
def validate_code (code : List Char) : Bool :=
  if code.isEmpty then false
  else if code.length < 4 || 6 < code.length then false
  else if allSame code then false
  else if !code.all Char.isDigit then false
  else true

/-- The body of one attempt of `CaptchaSolver.solve` (lines 154-168) after the
HTTP response text arrived: strip, require length ≥ 4, take the first digit
run truncated to 6 characters (`re.findall(r'\d+', code)[0][:6]`), validate.
`none` means the attempt raised `'API 返回无效验证码'` and is retried. -/
def extract_code (resp : List Char) : Option (List Char) :=
  let code := pyStrip resp
  if ¬code.isEmpty ∧ 4 ≤ code.length then
    match digitRuns code with
    | [] => none
    | n :: _ =>
      let c := n.take 6
      if validate_code c then some c else none
  else none

/-- Outcome of one network attempt inside `solve`: the HTTP call raised (or
returned a non-ok status, line 151-152), or returned a response text. -/
inductive AttemptOut : Type
  | raised (msg : String)
  | ok (resp : String)

/-- The captcha code produced by one attempt, if any. -/
def attemptCode : AttemptOut → Option (List Char)
  | .raised _ => none
  | .ok r => extract_code r.data

/-- Result of `CaptchaSolver.solve`: the returned code (or `None`), the number
of attempts consumed, and the total seconds slept (`await asyncio.sleep(2)`
between consecutive attempts, line 176). -/
structure SolveResult where
  code : Option (List Char)
  attemptsUsed : Nat
  sleepSeconds : Nat
  deriving DecidableEq, Repr

/-- The retry loop of `solve` (lines 139-176) over the list of pending attempt
outcomes: a successful attempt returns at once; a failed attempt increments
`retry_count`, returns `None` when no attempts remain (`retry_count >=
max_retries`), and otherwise sleeps 2 seconds and retries. -/
def solveList : List AttemptOut → SolveResult
  | [] => ⟨none, 0, 0⟩
  | o :: rest =>
    match attemptCode o with
    | some c => ⟨some c, 1, 0⟩
    | none =>
      if rest.isEmpty then ⟨none, 1, 0⟩
      else
        let r := solveList rest
        ⟨r.code, r.attemptsUsed + 1, r.sleepSeconds + 2⟩

/-- `CaptchaSolver.solve` with `max_retries = 3` (line 139): at most the three
given attempt outcomes are consumed. -/
def solve3 (o1 o2 o3 : AttemptOut) : SolveResult :=
  solveList [o1, o2, o3]

/-! ## Substring matching and the submission classifier (lines 929-957) -/

/-- Python `needle in hay` on character lists. -/
def containsSub : List Char → List Char → Bool
  | [], needle => needle.isEmpty
  | h :: t, needle => needle.isPrefixOf (h :: t) || containsSub t needle

/-- Python `needle in hay` on strings. -/
def strContains (hay needle : String) : Bool :=
  containsSub hay.data needle.data

/-- The failure substrings checked first in `submit_extend` (lines 931-936). -/
def errorSubstrings : List String :=
  ["入力された認証コードが正しくありません", "認証コードが正しくありません", "エラー", "間違"]

/-- The success substrings checked second in `submit_extend` (lines 943-948). -/
def successSubstrings : List String :=
  ["完了", "継続", "完成", "更新しました"]

/-- The post-submission classifier of `submit_extend` (lines 929-957): a page
containing any failure substring is `Failed`; otherwise any success substring
gives `Success`; otherwise `Unknown`. -/
def classify_submission (html : String) : String :=
  if errorSubstrings.any (fun t => strContains html t) then "Failed"
  else if successSubstrings.any (fun t => strContains html t) then "Success"
  else "Unknown"

/-! ## Run state (`XServerVPSRenewal.__init__`, lines 186-198) -/

/-- Result of a `page.evaluate` call: a value, or a raised exception. -/
inductive EvalResult (α : Type) : Type
  | ok (a : α)
  | raised (msg : String)
  deriving DecidableEq, Repr

/-- The mutable run state: status, previous and new expiry date (day
ordinal of the parsed ISO date, see the header comment), last error text. -/
structure RunState where
  renewal_status : String
  old_expiry_time : Option Int
  new_expiry_time : Option Int
  error_message : Option String
  deriving DecidableEq, Repr

/-- The state as initialised in `__init__` (lines 193-196). -/
def initState : RunState :=
  ⟨"Unknown", none, none, none⟩

/-- Membership in the four enumerated status values. -/
def validStatus (s : String) : Bool :=
  s == "Unknown" || s == "Success" || s == "Unexpired" || s == "Failed"

/-- `get_expiry` (lines 395-428) with the scraping abstracted: `scraped` is the
date parsed out of the detail page, `none` when no row matched or the
navigation raised.  On success the state's `old_expiry_time` is overwritten;
on failure the state is untouched and `False` is returned. -/
def get_expiry (scraped : Option Int) (s : RunState) : RunState × Bool :=
  match scraped with
  | some d => ({ s with old_expiry_time := some d }, true)
  | none => (s, false)

/-! ## Browser setup and the proxy-effectiveness gate (lines 257-359) -/

/-- Observations the setup stage depends on. -/
structure SetupEnv where
  /-- `Config.PROXY_SERVER` is set. -/
  proxyConfigured : Bool
  /-- `Config.RUNNER_IP`, when provided. -/
  runnerIP : Option String
  /-- The text scraped from `api.ipify.org`; `none` when that lookup raised
  (line 349-351: the check is then skipped with a warning). -/
  browserIP : Option String
  /-- Any other exception during setup (proxy parse failure, launch failure). -/
  otherFailure : Bool

/-- The proxy-ineffective message assigned on lines 341-346. -/
def proxyIneffectiveMsg (bip rip : String) : String :=
  "检测到代理未生效：浏览器出口 IP 与 GitHub Runner IP 相同，为避免触发邮箱验证，已中断续期。"
    ++ " (browser_ip=" ++ bip ++ ", runner_ip=" ++ rip ++ ")"

/-- `setup_browser` (lines 257-359) reduced to its decision: returns success
and the error message it stores.  A proxy is considered ineffective exactly
when a proxy is configured, a runner IP is provided, and the browser's
observed egress IP equals the runner IP (line 340). -/
def setup_browser (e : SetupEnv) : Bool × Option String :=
  if e.otherFailure then (false, some "浏览器初始化失败")
  else
    match e.browserIP, e.runnerIP with
    | some bip, some rip =>
      if e.proxyConfigured && bip == rip then (false, some (proxyIneffectiveMsg bip rip))
      else (true, none)
    | _, _ => (true, none)

/-! ## Turnstile handling (`complete_turnstile_verification`, lines 534-788) -/

/-- Observations the Turnstile handler depends on. -/
structure TurnstileEnv where
  /-- Result of evaluating `document.querySelector('.cf-turnstile') !== null`
  (lines 539-543); `raised` when the evaluation threw. -/
  detect : EvalResult Bool
  /-- `max_wait`, the polling ceiling in seconds. -/
  maxWait : Nat
  /-- Whether the page reports `verified` (token, success text or checkmark,
  lines 698-722) at poll second `i`. -/
  pollVerified : Nat → Bool
  /-- Whether `cf-turnstile-response` holds a token after the timeout
  (lines 768-783). -/
  finalHasToken : Bool

/-- `complete_turnstile_verification`: pass-through when no widget is detected
(lines 545-547); success at the first poll that reports `verified`
(lines 695-732); after a timeout, success anyway if a token is present
(lines 780-783); otherwise failure.  A raised detection is caught by the
outer handler and returns failure (lines 786-788).  The click heuristics
(methods 1-3) only influence the page, which is abstract here. -/
def complete_turnstile (e : TurnstileEnv) : Bool :=
  match e.detect with
  | .raised _ => false
  | .ok has =>
    if !has then true
    else if (List.range e.maxWait).any e.pollVerified then true
    else if e.finalHasToken then true
    else false

/-! ## Renewal page acquisition (`open_extend`, lines 456-531) -/

/-- Observations `open_extend` depends on. -/
structure OpenExtendEnv where
  /-- Method 1: the continue button click succeeded (lines 462-473). -/
  method1 : Bool
  /-- Method 1b: the continue link click succeeded (lines 476-487). -/
  method1b : Bool
  /-- Method 2: page content after navigating to `EXTEND_URL`; `none` when the
  navigation raised (lines 490-524). -/
  content : Option String
  /-- One of the two method-2 clicks succeeded (lines 498-516). -/
  click2 : Bool

/-- `open_extend`: try the button, the link, then direct navigation.  After
navigation, a page still offering the continue control is clicked; a page
mentioning `延長期限` or `期限まで` means the renewal window has not opened,
which sets status `Unexpired` (lines 518-521); anything else fails without
touching the state. -/
def open_extend (e : OpenExtendEnv) (s : RunState) : RunState × Bool :=
  if e.method1 || e.method1b then (s, true)
  else
    match e.content with
    | none => (s, false)
    | some c =>
      if strContains c "引き続き無料VPSの利用を継続する" then
        if e.click2 then (s, true) else (s, false)
      else if strContains c "延長期限" || strContains c "期限まで" then
        ({ s with renewal_status := "Unexpired" }, false)
      else (s, false)

/-! ## Form submission (`submit_extend`, lines 791-963) -/

/-- The stages of `submit_extend` that get attempted, in order. -/
inductive SubStep : Type
  | turnstile
  | findImg
  | solveCaptcha
  | fillCode
  | submitForm
  | classify
  deriving DecidableEq, Repr

/-- Observations `submit_extend` depends on. -/
structure SubmitEnv where
  /-- Page observations for the embedded Turnstile pass (line 811). -/
  ts : TurnstileEnv
  /-- Result of the captcha-image lookup (lines 818-830); the page script
  throws when no image is found, and `ok ""` is the degenerate falsy value
  that triggers the `Unexpired` branch (lines 832-835). -/
  imgEval : EvalResult String
  /-- The three captcha-recognition attempt outcomes (line 840). -/
  cap1 : AttemptOut
  cap2 : AttemptOut
  cap3 : AttemptOut
  /-- Result of filling the code input (lines 848-864). -/
  fillEval : EvalResult Bool
  /-- Result of the submit click script (lines 903-923). -/
  submitEval : EvalResult Bool
  /-- `page.content()` after submission (line 929). -/
  html : String
  /-- The date scraped by the post-success `get_expiry` call (line 951). -/
  rescrape : Option Int

/-- `submit_extend`: runs the Turnstile pass (its result is only logged,
lines 811-813), finds the captcha image, solves it, fills it, submits the
form and classifies the resulting page.  Any exception is caught by the
outer handler, which sets status `Failed` and stores the message
(lines 959-963).  On a `Success` classification the expiry is re-scraped
and `new_expiry_time` is set to the (possibly refreshed) `old_expiry_time`
(lines 949-953).  Returns the new state, the boolean result, and the list
of attempted stages. -/
def submit_extend (e : SubmitEnv) (s : RunState) : RunState × Bool × List SubStep :=
  let _ts := complete_turnstile e.ts
  match e.imgEval with
  | .raised m =>
    ({ s with renewal_status := "Failed", error_message := some m }, false,
      [.turnstile, .findImg])
  | .ok img =>
    if img == "" then
      ({ s with renewal_status := "Unexpired" }, false, [.turnstile, .findImg])
    else
      match (solve3 e.cap1 e.cap2 e.cap3).code with
      | none =>
        ({ s with renewal_status := "Failed", error_message := some "验证码识别失败" }, false,
          [.turnstile, .findImg, .solveCaptcha])
      | some _code =>
        match e.fillEval with
        | .raised m =>
          ({ s with renewal_status := "Failed", error_message := some m }, false,
            [.turnstile, .findImg, .solveCaptcha, .fillCode])
        | .ok filled =>
          if !filled then
            ({ s with renewal_status := "Failed", error_message := some "未找到验证码输入框" },
              false, [.turnstile, .findImg, .solveCaptcha, .fillCode])
          else
            match e.submitEval with
            | .raised m =>
              ({ s with renewal_status := "Failed", error_message := some m }, false,
                [.turnstile, .findImg, .solveCaptcha, .fillCode, .submitForm])
            | .ok submitted =>
              if !submitted then
                ({ s with renewal_status := "Failed", error_message := some "无法提交表单" },
                  false, [.turnstile, .findImg, .solveCaptcha, .fillCode, .submitForm])
              else
                let cls := classify_submission e.html
                let steps : List SubStep :=
                  [.turnstile, .findImg, .solveCaptcha, .fillCode, .submitForm, .classify]
                if cls == "Failed" then
                  ({ s with renewal_status := "Failed", error_message := some "验证码错误或 Turnstile 验证失败" },
                    false, steps)
                else if cls == "Success" then
                  let s1 := (get_expiry e.rescrape { s with renewal_status := "Success" }).1
                  ({ s1 with new_expiry_time := s1.old_expiry_time }, true, steps)
                else
                  ({ s with renewal_status := "Unknown" }, false, steps)

/-! ## The main pipeline (`run`, lines 1000-1039) -/

/-- The stages of `run`, in order of attempt. -/
inductive RunStage : Type
  | setupS
  | loginS
  | expiryS
  | gateS
  | openExtendS
  | submitS
  deriving DecidableEq, Repr

/-- `can_extend_date = expiry_date - datetime.timedelta(days=1)` (line 1028):
the renewal window opens one day before expiry. -/
def can_extend_date (expiry : Int) : Int :=
  expiry - 1

/-- All outside observations `run` depends on. -/
structure Env where
  setup : SetupEnv
  /-- `login()` succeeded (lines 362-392). -/
  loginOk : Bool
  /-- The date scraped by `get_expiry` (line 1021). -/
  scraped : Option Int
  /-- `datetime.datetime.now(timezone(timedelta(hours=9))).date()` (line 1026):
  today's date in fixed UTC+9, as a day ordinal. -/
  today : Int
  oe : OpenExtendEnv
  se : SubmitEnv

/-- `run` (lines 1000-1039): setup (status `Failed` on failure, line 1008),
login (status `Failed` on failure, line 1015), expiry scrape, then the
eligibility gate: when an expiry date is recorded and today (UTC+9) precedes
`can_extend_date`, set status `Unexpired`, clear the error and stop.  The
source text is truncated right after this assignment (line 1039, an
incomplete `self.save` of the cache).

Modelled from the spec: the continuation of `run` after the eligibility
gate is missing from the source.  Per the spec, the `Unexpired` branch
records the status and exits without attempting renewal, and otherwise the
remaining stages run in sequence — renewal page acquisition, then
challenge/captcha/submission (`submit_extend`), a failure in an early stage
short-circuiting the remaining stages.  Returns the final state and the
stages attempted. -/
def run (env : Env) : RunState × List RunStage :=
  let sb := setup_browser env.setup
  if !sb.1 then
    ({ initState with renewal_status := "Failed", error_message := sb.2 },
      [.setupS])
  else if !env.loginOk then
    ({ initState with renewal_status := "Failed" }, [.setupS, .loginS])
  else
    let s1 := (get_expiry env.scraped initState).1
    let eligibilityHalt : Bool :=
      match s1.old_expiry_time with
      | some e => env.today < can_extend_date e
      | none => false
    if eligibilityHalt then
      ({ s1 with renewal_status := "Unexpired", error_message := none },
        [.setupS, .loginS, .expiryS, .gateS])
    else
      let o := open_extend env.oe s1
      if !o.2 then
        (o.1, [.setupS, .loginS, .expiryS, .gateS, .openExtendS])
      else
        ((submit_extend env.se o.1).1,
          [.setupS, .loginS, .expiryS, .gateS, .openExtendS, .submitS])

/-! ## README generation (`generate_readme`, lines 966-997) -/

/-- Python f-string rendering of an optional date: `None` renders as the
literal `None` (used in the `Success` and `Unexpired` sections). -/
def showDate : Option Int → String
  | some d => toString d
  | none => "None"

/-- Python `value or '未知'` rendering used in the failure section. -/
def showDateOrUnknown : Option Int → String
  | some d => toString d
  | none => "未知"

/-- Python `self.error_message or '未知'`. -/
def showErrOrUnknown : Option String → String
  | some e => e
  | none => "未知"

/-- Header of the success section (line 976). -/
def hdrSuccess : String := "## ✅ 续期成功"

/-- Header of the not-yet-expired section (line 982). -/
def hdrUnexpired : String := "## ℹ️ 尚未到期"

/-- Header of the failure section (line 987), used for every status other
than `Success` and `Unexpired` — in particular for both `Failed` and
`Unknown`. -/
def hdrFailure : String := "## ❌ 续期失败"

/-- The status section appended by `generate_readme` (lines 974-990): one of
three sections, selected by the status string. -/
def sectionText (status : String) (old new : Option Int) (err : Option String) : String :=
  if status == "Success" then
    "## ✅ 续期成功\n\n- 🕛 **旧到期**: `" ++ showDate old
      ++ "`\n- 🕡 **新到期**: `" ++ showDate new ++ "`\n"
  else if status == "Unexpired" then
    "## ℹ️ 尚未到期\n\n- 🕛 **到期时间**: `" ++ showDate old ++ "`\n"
  else
    "## ❌ 续期失败\n\n- 🕛 **到期**: `" ++ showDateOrUnknown old
      ++ "`\n- ⚠️ **错误**: " ++ showErrOrUnknown err ++ "\n"

/-- The full README document (lines 970-992): preamble, one status section,
footer.  `ts` is the formatted UTC+8 timestamp, `vpsId` is `Config.VPS_ID`. -/
def readmeDoc (status : String) (old new : Option Int) (err : Option String)
    (ts vpsId : String) : String :=
  "# XServer VPS 自动续期状态\n\n"
    ++ "**运行时间**: `" ++ ts ++ " (UTC+8)`<br>\n"
    ++ "**VPS ID**: `" ++ vpsId ++ "`<br>\n\n---\n\n"
    ++ sectionText status old new err
    ++ "\n---\n\n*最后更新: " ++ ts ++ "*\n"

/-- The three section headers defined by `generate_readme`. -/
def sectionHeaders : List String :=
  [hdrSuccess, hdrUnexpired, hdrFailure]

/-- How many of the defined section headers begin the status section. -/
def headerCount (sec : String) : Nat :=
  (sectionHeaders.filter (fun h => h.data.isPrefixOf sec.data)).length

/-! ## Helper lemmas -/

theorem isPrefixOf_append_of_length_le (a b c : List Char) (h : a.length ≤ b.length) :
    a.isPrefixOf (b ++ c) = a.isPrefixOf b := by
  induction a generalizing b with
  | nil => simp [List.isPrefixOf]
  | cons x xs ih =>
    cases b with
    | nil => simp at h
    | cons y ys =>
      simp only [List.cons_append, List.isPrefixOf, List.append_eq]
      rw [ih ys (Nat.le_of_succ_le_succ h)]

theorem isDigit_eq_false_of_isWhitespace (c : Char) (h : c.isWhitespace = true) :
    c.isDigit = false := by
  simp only [Char.isWhitespace, Bool.or_eq_true, decide_eq_true_eq] at h
  rcases h with ((h | h) | h) | h <;> subst h <;> decide

theorem digitRunsAux_nodigit (w : List Char) (hw : ∀ c ∈ w, c.isDigit = false)
    (acc : List Char) :
    digitRunsAux w acc = if acc.isEmpty then [] else [acc.reverse] := by
  induction w generalizing acc with
  | nil => rfl
  | cons c cs ih =>
    have hc : c.isDigit = false := hw c (by simp)
    have hcs : ∀ x ∈ cs, x.isDigit = false := fun x hx => hw x (List.mem_cons_of_mem c hx)
    simp only [digitRunsAux, hc, Bool.false_eq_true, if_false]
    by_cases hacc : acc.isEmpty
    · simp [hacc, ih hcs]
    · simp [hacc, ih hcs]

theorem digitRunsAux_append_nodigit (w : List Char) (hw : ∀ c ∈ w, c.isDigit = false)
    (s acc : List Char) :
    digitRunsAux (s ++ w) acc = digitRunsAux s acc := by
  induction s generalizing acc with
  | nil =>
    rw [List.nil_append, digitRunsAux_nodigit w hw acc]
    rfl
  | cons c cs ih =>
    simp only [List.cons_append, digitRunsAux, List.append_eq, ih]

theorem digitRuns_dropWhile_ws (s : List Char) :
    digitRuns (s.dropWhile Char.isWhitespace) = digitRuns s := by
  induction s with
  | nil => rfl
  | cons c cs ih =>
    by_cases hc : c.isWhitespace = true
    · have hd : c.isDigit = false := isDigit_eq_false_of_isWhitespace c hc
      rw [List.dropWhile_cons]
      simp only [hc, if_true]
      rw [ih]
      show digitRuns cs = digitRunsAux (c :: cs) []
      simp [digitRuns, digitRunsAux, hd]
    · rw [List.dropWhile_cons]
      simp [hc]

theorem digitRuns_pyStrip (s : List Char) :
    digitRuns (pyStrip s) = digitRuns s := by
  have h1 : (s.dropWhile Char.isWhitespace).reverse
      = (s.dropWhile Char.isWhitespace).reverse.takeWhile Char.isWhitespace
        ++ (s.dropWhile Char.isWhitespace).reverse.dropWhile Char.isWhitespace :=
    (List.takeWhile_append_dropWhile _ _).symm
  have h2 : s.dropWhile Char.isWhitespace
      = pyStrip s
        ++ ((s.dropWhile Char.isWhitespace).reverse.takeWhile Char.isWhitespace).reverse := by
    conv_lhs => rw [← List.reverse_reverse (s.dropWhile Char.isWhitespace), h1]
    rw [List.reverse_append]
    rfl
  have hws : ∀ c ∈ ((s.dropWhile Char.isWhitespace).reverse.takeWhile Char.isWhitespace).reverse,
      c.isDigit = false := by
    intro c hc
    rw [List.mem_reverse] at hc
    exact isDigit_eq_false_of_isWhitespace c (List.mem_takeWhile_imp hc)
  have h3 : digitRuns (s.dropWhile Char.isWhitespace) = digitRuns (pyStrip s) := by
    rw [h2]
    exact digitRunsAux_append_nodigit _ hws (pyStrip s) []
  rw [← h3, digitRuns_dropWhile_ws]

theorem validate_code_spec (c : List Char) (h : validate_code c = true) :
    4 ≤ c.length ∧ c.length ≤ 6 ∧ c.all Char.isDigit = true ∧ allSame c = false := by
  unfold validate_code at h
  split_ifs at h with h1 h2 h3 h4
  refine ⟨?_, ?_, ?_, ?_⟩
  · simp only [Bool.or_eq_true, decide_eq_true_eq, not_or] at h2
    omega
  · simp only [Bool.or_eq_true, decide_eq_true_eq, not_or] at h2
    omega
  · simpa using h4
  · simpa using h3

theorem exists_two_distinct_of_allSame_false (c : List Char) (h : allSame c = false) :
    ∃ x ∈ c, ∃ y ∈ c, x ≠ y := by
  cases c with
  | nil => simp [allSame] at h
  | cons a t =>
    simp only [allSame] at h
    have h' : ¬∀ x ∈ t, (x == a) = true := by
      intro hall
      rw [List.all_eq_true.mpr hall] at h
      exact absurd h (by simp)
    push_neg at h'
    obtain ⟨x, hx, hne⟩ := h'
    exact ⟨a, List.mem_cons_self a t, x, List.mem_cons_of_mem a hx,
      fun heq => hne (beq_iff_eq.mpr heq.symm)⟩

theorem extract_code_spec (r c : List Char) (h : extract_code r = some c) :
    validate_code c = true ∧ c = ((digitRuns r).headD []).take 6 := by
  simp only [extract_code] at h
  split_ifs at h with hcond
  · cases hd : digitRuns (pyStrip r) with
    | nil =>
      rw [hd] at h
      exact absurd h (by simp)
    | cons n tl =>
      rw [hd] at h
      simp only at h
      split_ifs at h with hv
      · have hc : c = n.take 6 := by
          injection h with h'
          exact h'.symm
        subst hc
        refine ⟨hv, ?_⟩
        rw [← digitRuns_pyStrip r, hd]
        rfl

theorem solveList_code_mem (l : List AttemptOut) (c : List Char)
    (h : (solveList l).code = some c) : ∃ o ∈ l, attemptCode o = some c := by
  induction l with
  | nil => simp [solveList] at h
  | cons o rest ih =>
    simp only [solveList] at h
    cases ha : attemptCode o with
    | some c' =>
      rw [ha] at h
      simp only at h
      exact ⟨o, List.mem_cons_self o rest, by rw [ha, h]⟩
    | none =>
      rw [ha] at h
      by_cases hr : rest.isEmpty
      · simp [hr] at h
      · simp only [hr, if_false] at h
        obtain ⟨o', ho', hc⟩ := ih h
        exact ⟨o', List.mem_cons_of_mem o ho', hc⟩

/-! ## Claims -/

/-- **C3**: For the captcha-recognition response `"123456 please retry"`, the
digit extraction in `solve` yields `"123456"` and `_validate_code` accepts it
(so `solve` returns it); for `"1111"`, validation rejects it because all
characters are identical, the length and digit checks passing; for `"12a45"`,
validation rejects it because it contains a non-digit character, the length
and distinctness checks passing. -/
theorem claim3_captcha_examples :
    (extract_code "123456 please retry".data = some "123456".data
      ∧ validate_code "123456".data = true
      ∧ (solve3 (.ok "123456 please retry") (.raised "e") (.raised "e")).code
          = some "123456".data)
    ∧ (validate_code "1111".data = false
      ∧ allSame "1111".data = true
      ∧ 4 ≤ "1111".data.length ∧ "1111".data.length ≤ 6
      ∧ "1111".data.all Char.isDigit = true)
    ∧ (validate_code "12a45".data = false
      ∧ "12a45".data.all Char.isDigit = false
      ∧ 4 ≤ "12a45".data.length ∧ "12a45".data.length ≤ 6
      ∧ allSame "12a45".data = false) := by
  decide

/-- **C10**: Every code returned by the captcha solver has 4 to 6 characters,
consists only of decimal digits, contains at least two distinct characters,
and is the first maximal digit run of the response of one of the attempts,
truncated to 6 characters; otherwise the solver returns `None`. -/
theorem claim10_solver_format (o1 o2 o3 : AttemptOut) (c : List Char)
    (h : (solve3 o1 o2 o3).code = some c) :
    (4 ≤ c.length ∧ c.length ≤ 6)
    ∧ c.all Char.isDigit = true
    ∧ (∃ x ∈ c, ∃ y ∈ c, x ≠ y)
    ∧ ∃ resp : String,
        (o1 = .ok resp ∨ o2 = .ok resp ∨ o3 = .ok resp)
        ∧ c = ((digitRuns resp.data).headD []).take 6 := by
  obtain ⟨o, ho, hc⟩ := solveList_code_mem _ c h
  cases o with
  | raised m => simp [attemptCode] at hc
  | ok resp =>
    obtain ⟨hv, hform⟩ := extract_code_spec _ _ hc
    obtain ⟨h4, h6, hdig, hsame⟩ := validate_code_spec _ hv
    refine ⟨⟨h4, h6⟩, hdig, exists_two_distinct_of_allSame_false _ hsame, resp, ?_, hform⟩
    rcases List.mem_cons.mp ho with ho | ho
    · exact Or.inl ho.symm
    rcases List.mem_cons.mp ho with ho | ho
    · exact Or.inr (Or.inl ho.symm)
    rcases List.mem_cons.mp ho with ho | ho
    · exact Or.inr (Or.inr ho.symm)
    · exact absurd ho (List.not_mem_nil _)

theorem claim10_solver_format_witness :
    (solve3 (.ok "4567") (.raised "x") (.raised "y")).code = some "4567".data
    ∧ ((4 ≤ "4567".data.length ∧ "4567".data.length ≤ 6)
      ∧ "4567".data.all Char.isDigit = true
      ∧ (∃ x ∈ "4567".data, ∃ y ∈ "4567".data, x ≠ y)
      ∧ ∃ resp : String,
          (AttemptOut.ok "4567" = .ok resp
            ∨ AttemptOut.raised "x" = .ok resp
            ∨ AttemptOut.raised "y" = .ok resp)
          ∧ "4567".data = ((digitRuns resp.data).headD []).take 6) :=
  ⟨by decide, claim10_solver_format (.ok "4567") (.raised "x") (.raised "y") "4567".data (by decide)⟩

/-- **C5**: The captcha-recognition client makes at most 3 attempts; when all
3 attempts fail it sleeps twice for a fixed 2 seconds (between consecutive
attempts, 4 seconds in total) and returns no result; an attempt only succeeds
on a response passing the format heuristics; and the caller `submit_extend`
treats the missing result as a hard stop, setting status `Failed`. -/
theorem claim5_retry_policy :
    (∀ o1 o2 o3 : AttemptOut,
      attemptCode o1 = none → attemptCode o2 = none → attemptCode o3 = none →
        solve3 o1 o2 o3 = ⟨none, 3, 4⟩)
    ∧ (∀ o1 o2 o3 : AttemptOut, (solve3 o1 o2 o3).attemptsUsed ≤ 3)
    ∧ (∀ (o : AttemptOut) (c : List Char),
        attemptCode o = some c → validate_code c = true)
    ∧ (∀ (e : SubmitEnv) (s : RunState) (img : String),
        e.imgEval = .ok img → img ≠ "" →
        (solve3 e.cap1 e.cap2 e.cap3).code = none →
        (submit_extend e s).1.renewal_status = "Failed"
          ∧ (submit_extend e s).1.error_message = some "验证码识别失败"
          ∧ (submit_extend e s).2.1 = false) := by
  refine ⟨?_, ?_, ?_, ?_⟩
  · intro o1 o2 o3 h1 h2 h3
    simp [solve3, solveList, h1, h2, h3]
  · intro o1 o2 o3
    cases h1 : attemptCode o1 <;> cases h2 : attemptCode o2 <;> cases h3 : attemptCode o3 <;>
      simp [solve3, solveList, h1, h2, h3]
  · intro o c h
    cases o with
    | raised m => simp [attemptCode] at h
    | ok resp => exact (extract_code_spec _ _ h).1
  · intro e s img he himg hsolve
    have himg' : (img == "") = false := by
      simp only [beq_eq_false_iff_ne, ne_eq]
      exact himg
    simp only [submit_extend, he, himg', if_false]
    rw [hsolve]
    exact ⟨rfl, rfl, rfl⟩

theorem claim5_retry_policy_witness :
    (attemptCode (.raised "a") = none ∧ attemptCode (.ok "bad") = none
      ∧ attemptCode (.raised "c") = none
      ∧ solve3 (.raised "a") (.ok "bad") (.raised "c") = ⟨none, 3, 4⟩)
    ∧ (attemptCode (.ok "98765") = some "98765".data
      ∧ validate_code "98765".data = true)
    ∧ ((submit_extend
          ⟨⟨.ok false, 0, fun _ => false, false⟩, .ok "img", .raised "a", .ok "bad",
            .raised "c", .ok true, .ok true, "", none⟩ initState).1.renewal_status
        = "Failed") :=
  ⟨⟨by decide, by decide, by decide,
      claim5_retry_policy.1 (.raised "a") (.ok "bad") (.raised "c")
        (by decide) (by decide) (by decide)⟩,
    ⟨by decide, claim5_retry_policy.2.2.1 (.ok "98765") "98765".data (by decide)⟩,
    (claim5_retry_policy.2.2.2
        ⟨⟨.ok false, 0, fun _ => false, false⟩, .ok "img", .raised "a", .ok "bad",
          .raised "c", .ok true, .ok true, "", none⟩ initState "img" rfl
        (by decide) (by decide)).1⟩

/-- **C2, counterexample**: the claim asserts `Success` whenever the content
contains `"更新しました"`, but the failure substrings are checked first
(lines 931-941), so a page containing both `"認証コードが正しくありません"`
and `"更新しました"` classifies as `Failed`, not `Success`. -/
theorem claim2_counterexample :
    strContains "認証コードが正しくありません更新しました" "更新しました" = true
    ∧ classify_submission "認証コードが正しくありません更新しました" = "Failed" := by
  decide

/-- **C2, amended**: the classifier assigns `Failed` to any content containing
`"認証コードが正しくありません"`; `Success` to content containing
`"更新しました"` provided none of the failure substrings occurs; and
`Unknown` — never `Failed` or `Success` — to content matching none of the
listed failure/success substrings. -/
theorem claim2_classifier (html : String) :
    (strContains html "認証コードが正しくありません" = true →
      classify_submission html = "Failed")
    ∧ (errorSubstrings.all (fun t => !strContains html t) = true →
      strContains html "更新しました" = true →
      classify_submission html = "Success")
    ∧ ((errorSubstrings ++ successSubstrings).all (fun t => !strContains html t) = true →
      classify_submission html = "Unknown") := by
  refine ⟨?_, ?_, ?_⟩
  · intro h
    simp [classify_submission, errorSubstrings, h]
  · intro hall hsucc
    simp only [errorSubstrings, List.all_cons, List.all_nil, Bool.and_eq_true,
      Bool.not_eq_true', and_true] at hall
    obtain ⟨e1, e2, e3, e4⟩ := hall
    simp [classify_submission, errorSubstrings, successSubstrings, e1, e2, e3, e4, hsucc]
  · intro hall
    simp only [errorSubstrings, successSubstrings, List.append_eq, List.cons_append,
      List.nil_append, List.all_cons, List.all_nil, Bool.and_eq_true,
      Bool.not_eq_true', and_true] at hall
    obtain ⟨e1, e2, e3, e4, s1, s2, s3, s4⟩ := hall
    simp [classify_submission, errorSubstrings, successSubstrings,
      e1, e2, e3, e4, s1, s2, s3, s4]

theorem claim2_classifier_witness :
    (strContains "認証コードが正しくありません" "認証コードが正しくありません" = true
      ∧ classify_submission "認証コードが正しくありません" = "Failed")
    ∧ (errorSubstrings.all (fun t => !strContains "更新しました" t) = true
      ∧ strContains "更新しました" "更新しました" = true
      ∧ classify_submission "更新しました" = "Success")
    ∧ ((errorSubstrings ++ successSubstrings).all (fun t => !strContains "xyz" t) = true
      ∧ classify_submission "xyz" = "Unknown") :=
  ⟨⟨by decide, (claim2_classifier "認証コードが正しくありません").1 (by decide)⟩,
    ⟨by decide, by decide, (claim2_classifier "更新しました").2.1 (by decide) (by decide)⟩,
    ⟨by decide, (claim2_classifier "xyz").2.2 (by decide)⟩⟩

/-- **C6**: The challenge solver is never fatal to the run: when no Turnstile
widget is detected it returns success immediately; when the polling loop times
out it still returns success if the completion token is present; and the
outcome of `submit_extend` never depends on the Turnstile result — in
particular, even when the solver returns failure the caller still reaches the
form-submission step (given the intervening captcha steps succeed). -/
theorem claim6_turnstile_nonfatal :
    (∀ e : TurnstileEnv, e.detect = .ok false → complete_turnstile e = true)
    ∧ (∀ e : TurnstileEnv, e.detect = .ok true →
        (List.range e.maxWait).any e.pollVerified = false →
        e.finalHasToken = true → complete_turnstile e = true)
    ∧ (∀ (e : SubmitEnv) (s : RunState) (t1 t2 : TurnstileEnv),
        submit_extend { e with ts := t1 } s = submit_extend { e with ts := t2 } s)
    ∧ (∀ (e : SubmitEnv) (s : RunState) (img : String) (c : List Char),
        complete_turnstile e.ts = false →
        e.imgEval = .ok img → img ≠ "" →
        (solve3 e.cap1 e.cap2 e.cap3).code = some c →
        e.fillEval = .ok true →
        SubStep.submitForm ∈ (submit_extend e s).2.2) := by
  refine ⟨?_, ?_, ?_, ?_⟩
  · intro e h
    simp [complete_turnstile, h]
  · intro e hd hp ht
    simp [complete_turnstile, hd, hp, ht]
  · intro e s t1 t2
    rfl
  · intro e s img c _hts he himg hsolve hfill
    have himg' : (img == "") = false := by
      simp only [beq_eq_false_iff_ne, ne_eq]
      exact himg
    simp only [submit_extend, he, himg', if_false]
    rw [hsolve, hfill]
    simp only [Bool.not_true, Bool.false_eq_true, if_false]
    cases e.submitEval with
    | raised m => simp
    | ok submitted =>
      by_cases hsub : submitted
      · simp only [hsub, Bool.not_true, Bool.false_eq_true, if_false]
        split_ifs <;> simp
      · simp [hsub]

theorem claim6_turnstile_nonfatal_witness :
    (TurnstileEnv.detect ⟨.ok false, 7, fun _ => false, false⟩ = .ok false
      ∧ complete_turnstile ⟨.ok false, 7, fun _ => false, false⟩ = true)
    ∧ (complete_turnstile ⟨.ok true, 5, fun _ => false, true⟩ = true)
    ∧ (complete_turnstile
          (TurnstileEnv.mk (.ok true) 2 (fun _ => false) false) = false
      ∧ SubStep.submitForm ∈
          (submit_extend
            ⟨⟨.ok true, 2, fun _ => false, false⟩, .ok "img", .ok "5678", .raised "b",
              .raised "c", .ok true, .ok true, "xyz", none⟩ initState).2.2) :=
  ⟨⟨rfl, claim6_turnstile_nonfatal.1 ⟨.ok false, 7, fun _ => false, false⟩ rfl⟩,
    claim6_turnstile_nonfatal.2.1 ⟨.ok true, 5, fun _ => false, true⟩ rfl (by decide) rfl,
    ⟨by decide,
      claim6_turnstile_nonfatal.2.2.2
        ⟨⟨.ok true, 2, fun _ => false, false⟩, .ok "img", .ok "5678", .raised "b",
          .raised "c", .ok true, .ok true, "xyz", none⟩ initState "img" "5678".data
        (by decide) rfl (by decide) (by decide) rfl⟩⟩

/-- **C9**: Whenever `submit_extend` classifies the outcome as `Success`, it
re-scrapes the expiry date and then sets `new_expiry_time` to the value of
`old_expiry_time`, so the recorded new expiry equals the recorded old expiry
field; when the re-scrape fails the reported new expiry is the stale
pre-renewal `old_expiry_time`, and when it succeeds it is the re-scraped
date. -/
theorem claim9_success_expiry (e : SubmitEnv) (s : RunState)
    (h : (submit_extend e s).1.renewal_status = "Success") :
    (submit_extend e s).1.new_expiry_time = (submit_extend e s).1.old_expiry_time
    ∧ (e.rescrape = none → (submit_extend e s).1.old_expiry_time = s.old_expiry_time)
    ∧ (∀ d : Int, e.rescrape = some d →
        (submit_extend e s).1.new_expiry_time = some d) := by
  revert h
  unfold submit_extend
  cases e.imgEval with
  | raised m =>
    intro h
    simp at h
  | ok img =>
    by_cases himg : (img == "") = true
    · simp only [himg, if_true]
      intro h
      simp at h
    · rw [Bool.not_eq_true] at himg
      simp only [himg, Bool.false_eq_true, if_false]
      cases hcode : (solve3 e.cap1 e.cap2 e.cap3).code with
      | none =>
        intro h
        simp at h
      | some c =>
        cases e.fillEval with
        | raised m =>
          intro h
          simp at h
        | ok filled =>
          by_cases hf : filled = true
          · simp only [hf, Bool.not_true, Bool.false_eq_true, if_false]
            cases e.submitEval with
            | raised m =>
              intro h
              simp at h
            | ok submitted =>
              by_cases hsub : submitted = true
              · simp only [hsub, Bool.not_true, Bool.false_eq_true, if_false]
                split_ifs with hcls1 hcls2
                · intro h
                  simp at h
                · intro _
                  cases hr : e.rescrape with
                  | none => simp [get_expiry, hr]
                  | some d => simp [get_expiry, hr]
                · intro h
                  simp at h
              · rw [Bool.not_eq_true] at hsub
                simp only [hsub, Bool.not_false, if_true]
                intro h
                simp at h
          · rw [Bool.not_eq_true] at hf
            simp only [hf, Bool.not_false, if_true]
            intro h
            simp at h

theorem claim9_success_expiry_witness :
    ((submit_extend
        ⟨⟨.ok false, 0, fun _ => false, false⟩, .ok "img", .ok "5678", .raised "b",
          .raised "c", .ok true, .ok true, "更新しました", some 42⟩ initState).1.renewal_status
      = "Success")
    ∧ ((submit_extend
        ⟨⟨.ok false, 0, fun _ => false, false⟩, .ok "img", .ok "5678", .raised "b",
          .raised "c", .ok true, .ok true, "更新しました", some 42⟩ initState).1.new_expiry_time
      = (submit_extend
        ⟨⟨.ok false, 0, fun _ => false, false⟩, .ok "img", .ok "5678", .raised "b",
          .raised "c", .ok true, .ok true, "更新しました", some 42⟩ initState).1.old_expiry_time) :=
  ⟨by decide,
    (claim9_success_expiry
      ⟨⟨.ok false, 0, fun _ => false, false⟩, .ok "img", .ok "5678", .raised "b",
        .raised "c", .ok true, .ok true, "更新しました", some 42⟩ initState (by decide)).1⟩

theorem get_expiry_status (scr : Option Int) (s : RunState) :
    (get_expiry scr s).1.renewal_status = s.renewal_status := by
  cases scr <;> rfl

theorem open_extend_status_valid (oe : OpenExtendEnv) (s : RunState)
    (h : validStatus s.renewal_status = true) :
    validStatus (open_extend oe s).1.renewal_status = true := by
  unfold open_extend
  by_cases h1 : (oe.method1 || oe.method1b) = true
  · simpa [h1] using h
  · rw [Bool.not_eq_true] at h1
    simp only [h1, Bool.false_eq_true, if_false]
    cases oe.content with
    | none => exact h
    | some c =>
      by_cases hc1 : strContains c "引き続き無料VPSの利用を継続する" = true
      · by_cases hck : oe.click2 = true <;> simp [hc1, hck, h]
      · by_cases hc2 : strContains c "延長期限" = true ∨ strContains c "期限まで" = true
        · simp [hc1, hc2, validStatus]
        · simp [hc1, hc2, h]

theorem submit_extend_status_valid (e : SubmitEnv) (s : RunState) :
    validStatus (submit_extend e s).1.renewal_status = true := by
  unfold submit_extend
  cases e.imgEval with
  | raised m => rfl
  | ok img =>
    by_cases himg : (img == "") = true
    · simp only [himg, if_true]
      rfl
    · rw [Bool.not_eq_true] at himg
      simp only [himg, Bool.false_eq_true, if_false]
      cases hcode : (solve3 e.cap1 e.cap2 e.cap3).code with
      | none => rfl
      | some c =>
        cases e.fillEval with
        | raised m => rfl
        | ok filled =>
          by_cases hf : filled = true
          · simp only [hf, Bool.not_true, Bool.false_eq_true, if_false]
            cases e.submitEval with
            | raised m => rfl
            | ok submitted =>
              by_cases hsub : submitted = true
              · simp only [hsub, Bool.not_true, Bool.false_eq_true, if_false]
                split_ifs with hcls1 hcls2
                · rfl
                · simp only [validStatus, get_expiry_status]
                  rfl
                · rfl
              · rw [Bool.not_eq_true] at hsub
                simp only [hsub, Bool.not_false, if_true]
                rfl
          · rw [Bool.not_eq_true] at hf
            simp only [hf, Bool.not_false, if_true]
            rfl

theorem run_status_valid (env : Env) :
    validStatus (run env).1.renewal_status = true := by
  simp only [run]
  by_cases hs : (setup_browser env.setup).1 = true
  · simp only [hs, Bool.not_true, Bool.false_eq_true, if_false]
    by_cases hl : env.loginOk = true
    · simp only [hl, Bool.not_true, Bool.false_eq_true, if_false]
      split_ifs with h1 h2
      · rfl
      · exact open_extend_status_valid env.oe _
          (by rw [get_expiry_status]; rfl)
      · exact submit_extend_status_valid env.se _
    · rw [Bool.not_eq_true] at hl
      simp only [hl, Bool.not_false, if_true]
      rfl
  · rw [Bool.not_eq_true] at hs
    simp only [hs, Bool.not_false, if_true]
    rfl

/-- **C7**: Throughout the run and at its end, the run state's status is
always one of the four enumerated values `Unknown`, `Success`, `Unexpired`,
`Failed`, whichever stage fails: the final state of `run` satisfies it, and
each state-mutating component (`open_extend`, `submit_extend`, `get_expiry`)
preserves it. -/
theorem claim7_status_invariant :
    (∀ env : Env, validStatus (run env).1.renewal_status = true)
    ∧ (∀ (oe : OpenExtendEnv) (s : RunState), validStatus s.renewal_status = true →
        validStatus (open_extend oe s).1.renewal_status = true)
    ∧ (∀ (e : SubmitEnv) (s : RunState),
        validStatus (submit_extend e s).1.renewal_status = true)
    ∧ (∀ (scr : Option Int) (s : RunState),
        (get_expiry scr s).1.renewal_status = s.renewal_status) :=
  ⟨run_status_valid, open_extend_status_valid, submit_extend_status_valid, get_expiry_status⟩

theorem claim7_status_invariant_witness :
    validStatus initState.renewal_status = true
    ∧ validStatus
        (open_extend ⟨false, false, some "延長期限", false⟩ initState).1.renewal_status
      = true :=
  ⟨by decide,
    claim7_status_invariant.2.1 ⟨false, false, some "延長期限", false⟩ initState (by decide)⟩

/-- **C1**: The eligibility gate computes the renewal-window start as the
parsed expiry date minus one day (`can_extend_date`) and compares it with
today's date in fixed UTC+9: when the scraped expiry equals today + 1 the
gate allows renewal to proceed (the renewal-page stage is attempted), and
when it equals today + 2 the run records status `Unexpired` and stops
without attempting the extend flow.  The continuation after the `Unexpired`
assignment is modelled from the spec, the source being truncated there. -/
theorem claim1_eligibility_gate (env : Env)
    (hs : (setup_browser env.setup).1 = true) (hl : env.loginOk = true) :
    (env.scraped = some (env.today + 1) → RunStage.openExtendS ∈ (run env).2)
    ∧ (env.scraped = some (env.today + 2) →
        (run env).1.renewal_status = "Unexpired"
        ∧ (run env).1.old_expiry_time = some (env.today + 2)
        ∧ RunStage.openExtendS ∉ (run env).2
        ∧ RunStage.submitS ∉ (run env).2) := by
  constructor
  · intro hscr
    simp only [run, hs, Bool.not_true, Bool.false_eq_true, if_false, hl, hscr, get_expiry]
    have hhalt : decide (env.today < can_extend_date (env.today + 1)) = false := by
      simp only [can_extend_date, decide_eq_false_iff_not]
      omega
    simp only [hhalt, Bool.false_eq_true, if_false]
    split_ifs <;> simp
  · intro hscr
    simp only [run, hs, Bool.not_true, Bool.false_eq_true, if_false, hl, hscr, get_expiry]
    have hhalt : decide (env.today < can_extend_date (env.today + 2)) = true := by
      simp only [can_extend_date, decide_eq_true_eq]
      omega
    simp only [hhalt, if_true]
    refine ⟨?_, ?_, ?_, ?_⟩ <;> simp

theorem claim1_eligibility_gate_witness :
    ((setup_browser ⟨false, none, none, false⟩).1 = true
      ∧ RunStage.openExtendS ∈
        (run ⟨⟨false, none, none, false⟩, true, some 11, 10, ⟨true, false, none, false⟩,
          ⟨⟨.ok false, 0, fun _ => false, false⟩, .ok "i", .raised "a", .raised "b",
            .raised "c", .ok true, .ok true, "x", none⟩⟩).2)
    ∧ ((run ⟨⟨false, none, none, false⟩, true, some 12, 10, ⟨true, false, none, false⟩,
          ⟨⟨.ok false, 0, fun _ => false, false⟩, .ok "i", .raised "a", .raised "b",
            .raised "c", .ok true, .ok true, "x", none⟩⟩).1.renewal_status = "Unexpired"
      ∧ RunStage.submitS ∉
        (run ⟨⟨false, none, none, false⟩, true, some 12, 10, ⟨true, false, none, false⟩,
          ⟨⟨.ok false, 0, fun _ => false, false⟩, .ok "i", .raised "a", .raised "b",
            .raised "c", .ok true, .ok true, "x", none⟩⟩).2) :=
  ⟨⟨rfl,
    (claim1_eligibility_gate
      ⟨⟨false, none, none, false⟩, true, some 11, 10, ⟨true, false, none, false⟩,
        ⟨⟨.ok false, 0, fun _ => false, false⟩, .ok "i", .raised "a", .raised "b",
          .raised "c", .ok true, .ok true, "x", none⟩⟩ rfl rfl).1 rfl⟩,
   ⟨((claim1_eligibility_gate
      ⟨⟨false, none, none, false⟩, true, some 12, 10, ⟨true, false, none, false⟩,
        ⟨⟨.ok false, 0, fun _ => false, false⟩, .ok "i", .raised "a", .raised "b",
          .raised "c", .ok true, .ok true, "x", none⟩⟩ rfl rfl).2 rfl).1,
    ((claim1_eligibility_gate
      ⟨⟨false, none, none, false⟩, true, some 12, 10, ⟨true, false, none, false⟩,
        ⟨⟨.ok false, 0, fun _ => false, false⟩, .ok "i", .raised "a", .raised "b",
          .raised "c", .ok true, .ok true, "x", none⟩⟩ rfl rfl).2 rfl).2.2.2⟩⟩

/-- **C4**: When a proxy is configured, a runner egress address is provided,
and the browser's observed egress address equals it, `setup_browser` returns
failure with the proxy-ineffective error, and `run` then terminates with
status `Failed` before the login stage is ever attempted. -/
theorem claim4_proxy_gate (env : Env) (ip : String)
    (hp : env.setup.proxyConfigured = true)
    (hr : env.setup.runnerIP = some ip)
    (hb : env.setup.browserIP = some ip)
    (ho : env.setup.otherFailure = false) :
    setup_browser env.setup = (false, some (proxyIneffectiveMsg ip ip))
    ∧ (run env).1.renewal_status = "Failed"
    ∧ (run env).1.error_message = some (proxyIneffectiveMsg ip ip)
    ∧ RunStage.loginS ∉ (run env).2 := by
  have hsb : setup_browser env.setup = (false, some (proxyIneffectiveMsg ip ip)) := by
    simp [setup_browser, ho, hb, hr, hp]
  refine ⟨hsb, ?_, ?_, ?_⟩ <;> simp [run, hsb]

theorem claim4_proxy_gate_witness :
    setup_browser ⟨true, some "9.9.9.9", some "9.9.9.9", false⟩
      = (false, some (proxyIneffectiveMsg "9.9.9.9" "9.9.9.9"))
    ∧ (run ⟨⟨true, some "9.9.9.9", some "9.9.9.9", false⟩, true, none, 0,
        ⟨true, false, none, false⟩,
        ⟨⟨.ok false, 0, fun _ => false, false⟩, .ok "i", .raised "a", .raised "b",
          .raised "c", .ok true, .ok true, "x", none⟩⟩).1.renewal_status = "Failed"
    ∧ RunStage.loginS ∉
        (run ⟨⟨true, some "9.9.9.9", some "9.9.9.9", false⟩, true, none, 0,
          ⟨true, false, none, false⟩,
          ⟨⟨.ok false, 0, fun _ => false, false⟩, .ok "i", .raised "a", .raised "b",
            .raised "c", .ok true, .ok true, "x", none⟩⟩).2 :=
  ⟨(claim4_proxy_gate
      ⟨⟨true, some "9.9.9.9", some "9.9.9.9", false⟩, true, none, 0,
        ⟨true, false, none, false⟩,
        ⟨⟨.ok false, 0, fun _ => false, false⟩, .ok "i", .raised "a", .raised "b",
          .raised "c", .ok true, .ok true, "x", none⟩⟩ "9.9.9.9" rfl rfl rfl rfl).1,
    (claim4_proxy_gate
      ⟨⟨true, some "9.9.9.9", some "9.9.9.9", false⟩, true, none, 0,
        ⟨true, false, none, false⟩,
        ⟨⟨.ok false, 0, fun _ => false, false⟩, .ok "i", .raised "a", .raised "b",
          .raised "c", .ok true, .ok true, "x", none⟩⟩ "9.9.9.9" rfl rfl rfl rfl).2.1,
    (claim4_proxy_gate
      ⟨⟨true, some "9.9.9.9", some "9.9.9.9", false⟩, true, none, 0,
        ⟨true, false, none, false⟩,
        ⟨⟨.ok false, 0, fun _ => false, false⟩, .ok "i", .raised "a", .raised "b",
          .raised "c", .ok true, .ok true, "x", none⟩⟩ "9.9.9.9" rfl rfl rfl rfl).2.2.2⟩

theorem str_data_append (a b : String) : (a ++ b).data = a.data ++ b.data :=
  rfl

theorem headerCount_append_success (rest : List Char) :
    (sectionHeaders.filter
      (fun h =>
        h.data.isPrefixOf ("## ✅ 续期成功\n\n- 🕛 **旧到期**: `".data ++ rest))).length
      = 1 := by
  have v1 : hdrSuccess.data.isPrefixOf
      ("## ✅ 续期成功\n\n- 🕛 **旧到期**: `".data ++ rest) = true := by
    rw [isPrefixOf_append_of_length_le _ _ _ (by decide)]
    decide
  have v2 : hdrUnexpired.data.isPrefixOf
      ("## ✅ 续期成功\n\n- 🕛 **旧到期**: `".data ++ rest) = false := by
    rw [isPrefixOf_append_of_length_le _ _ _ (by decide)]
    decide
  have v3 : hdrFailure.data.isPrefixOf
      ("## ✅ 续期成功\n\n- 🕛 **旧到期**: `".data ++ rest) = false := by
    rw [isPrefixOf_append_of_length_le _ _ _ (by decide)]
    decide
  simp only [sectionHeaders, List.filter_cons, List.filter_nil, v1, v2, v3,
    Bool.false_eq_true, eq_self_iff_true, if_true, if_false, List.length_cons,
    List.length_nil]

theorem headerCount_append_unexpired (rest : List Char) :
    (sectionHeaders.filter
      (fun h =>
        h.data.isPrefixOf ("## ℹ️ 尚未到期\n\n- 🕛 **到期时间**: `".data ++ rest))).length
      = 1 := by
  have v1 : hdrSuccess.data.isPrefixOf
      ("## ℹ️ 尚未到期\n\n- 🕛 **到期时间**: `".data ++ rest) = false := by
    rw [isPrefixOf_append_of_length_le _ _ _ (by decide)]
    decide
  have v2 : hdrUnexpired.data.isPrefixOf
      ("## ℹ️ 尚未到期\n\n- 🕛 **到期时间**: `".data ++ rest) = true := by
    rw [isPrefixOf_append_of_length_le _ _ _ (by decide)]
    decide
  have v3 : hdrFailure.data.isPrefixOf
      ("## ℹ️ 尚未到期\n\n- 🕛 **到期时间**: `".data ++ rest) = false := by
    rw [isPrefixOf_append_of_length_le _ _ _ (by decide)]
    decide
  simp only [sectionHeaders, List.filter_cons, List.filter_nil, v1, v2, v3,
    Bool.false_eq_true, eq_self_iff_true, if_true, if_false, List.length_cons,
    List.length_nil]

theorem headerCount_append_failure (rest : List Char) :
    (sectionHeaders.filter
      (fun h =>
        h.data.isPrefixOf ("## ❌ 续期失败\n\n- 🕛 **到期**: `".data ++ rest))).length
      = 1 := by
  have v1 : hdrSuccess.data.isPrefixOf
      ("## ❌ 续期失败\n\n- 🕛 **到期**: `".data ++ rest) = false := by
    rw [isPrefixOf_append_of_length_le _ _ _ (by decide)]
    decide
  have v2 : hdrUnexpired.data.isPrefixOf
      ("## ❌ 续期失败\n\n- 🕛 **到期**: `".data ++ rest) = false := by
    rw [isPrefixOf_append_of_length_le _ _ _ (by decide)]
    decide
  have v3 : hdrFailure.data.isPrefixOf
      ("## ❌ 续期失败\n\n- 🕛 **到期**: `".data ++ rest) = true := by
    rw [isPrefixOf_append_of_length_le _ _ _ (by decide)]
    decide
  simp only [sectionHeaders, List.filter_cons, List.filter_nil, v1, v2, v3,
    Bool.false_eq_true, eq_self_iff_true, if_true, if_false, List.length_cons,
    List.length_nil]

/-- **C8, counterexample**: `generate_readme` defines only three status
sections, the failure section serving both `Failed` and `Unknown`: the
document generated for status `Unknown` is character-for-character identical
to the one generated for `Failed`, and carries the failure-section header, so
there is no section per status value (no four distinct sections exist). -/
theorem claim8_counterexample :
    readmeDoc "Unknown" none none none "2026-10-12 00:00:00" "40124478"
      = readmeDoc "Failed" none none none "2026-10-12 00:00:00" "40124478"
    ∧ hdrFailure.data.isPrefixOf (sectionText "Unknown" none none none).data = true
    ∧ sectionHeaders.length = 3 :=
  ⟨rfl, by decide, rfl⟩

/-- **C8, amended**: for every possible final run state, the generated status
document contains exactly one of the *three* defined status sections: its
section part begins with exactly one of the three defined section headers
(`Unknown` and `Failed` sharing the failure section). -/
theorem claim8_one_section (status : String) (old new : Option Int)
    (err : Option String) :
    headerCount (sectionText status old new err) = 1 := by
  unfold sectionText
  split_ifs with h1 h2
  · unfold headerCount
    simp only [str_data_append, List.append_assoc]
    exact headerCount_append_success _
  · unfold headerCount
    simp only [str_data_append, List.append_assoc]
    exact headerCount_append_unexpired _
  · unfold headerCount
    simp only [str_data_append, List.append_assoc]
    exact headerCount_append_failure _

end XRenewal
